import Mathlib

/-!
Shallow embedding of the transcription pipeline of the
video-transcript-extractor repository, with theorems checking the
natural-language specification's claims against the code.

Embedded components:
* `WhisperService` (src/apps/backend/src/middleware/errorHandler.ts,
  concatenated source): `calculateConfidence`, `retryWithBackoff`,
  `transcribeAudio`.
* `AudioExtractorService` (src/unnamed/part_010): `extractAudio` and the
  cleanup helpers `cleanupAudioFile` / `cleanupOldFiles`.
* `TranscriptionWorker` (src/unnamed/part_008): the per-job cleanup choice.
* `NotionService` (src/apps/backend/src/services/NotionService.ts):
  `chunkText`, `buildPageContent`, `createProperties` (the property object of
  `createTranscriptPage`), `findExistingTranscript`, `createTranscriptPage`,
  `updateTranscriptPage`, against a model of the external workspace.

JavaScript numbers are modelled as real numbers (`ℝ`) where the code takes
`Math.exp`, and as rationals (`ℚ`) elsewhere; machine strings are `String`.
-/

/-- One segment of a verbose_json transcription response
(`TranscriptionSegment` in WhisperService; only the fields the embedded
functions read are kept, and `end` is renamed `stop` because `end` is a
Lean keyword). -/
structure TranscriptionSegment where
  id : Int
  start : ℝ
  stop : ℝ
  text : String
  avg_logprob : ℝ

/-- Embedding of `WhisperService.calculateConfidence` (errorHandler.ts lines 388-399):
0 for an absent or empty segment list, otherwise
`Math.max(0, Math.min(1, Math.exp(averageLogProb)))` where `averageLogProb`
is the arithmetic mean of the segments' `avg_logprob`. -/
noncomputable def calculateConfidence (segments : List TranscriptionSegment) : ℝ :=
  if segments.length = 0 then 0
  else
    let totalLogProb := (segments.map (fun s => s.avg_logprob)).sum
    let averageLogProb := totalLogProb / segments.length
    max 0 (min 1 (Real.exp averageLogProb))

/-- Confidence as the specification's words describe it (spec sections 3
and 4.2): "the arithmetic mean of `exp(avg_logprob)` over all segments",
0 when no segments are present. Written from the spec, to be compared with
`calculateConfidence`, which is written from the source. -/
noncomputable def specMeanExpConfidence (segments : List TranscriptionSegment) : ℝ :=
  if segments.length = 0 then 0
  else (segments.map (fun s => Real.exp s.avg_logprob)).sum / segments.length

/-- A two-segment list on which the code's confidence differs from the
spec's formula: `avg_logprob` values 0 and -2. -/
noncomputable def twoSegments : List TranscriptionSegment :=
  [⟨0, 0, 1, "hello", 0⟩, ⟨1, 1, 2, "world", -2⟩]

lemma exp_neg_one_le_one : Real.exp (-1 : ℝ) ≤ 1 := by
  calc Real.exp (-1 : ℝ) ≤ Real.exp 0 := Real.exp_le_exp.mpr (by norm_num)
  _ = 1 := Real.exp_zero

lemma exp_neg_one_lt_half : Real.exp (-1 : ℝ) < 1 / 2 := by
  have h2 : (2 : ℝ) < Real.exp 1 := by
    have := Real.exp_one_gt_d9
    linarith
  have hmul : Real.exp (-1 : ℝ) * Real.exp 1 = 1 := by
    rw [← Real.exp_add]
    norm_num
  have hpos := Real.exp_pos (-1 : ℝ)
  nlinarith

lemma calculateConfidence_twoSegments : calculateConfidence twoSegments = Real.exp (-1 : ℝ) := by
  have hle := exp_neg_one_le_one
  have hpos := Real.exp_pos (-1 : ℝ)
  show (if ([] : List TranscriptionSegment).length + 2 = 0 then (0 : ℝ)
    else max 0 (min 1 (Real.exp (((0 : ℝ) + (-2 + 0)) / 2)))) = Real.exp (-1 : ℝ)
  norm_num
  exact hpos.le

lemma specMeanExpConfidence_twoSegments :
    specMeanExpConfidence twoSegments = (1 + Real.exp (-2 : ℝ)) / 2 := by
  show (if ([] : List TranscriptionSegment).length + 2 = 0 then (0 : ℝ)
    else (Real.exp 0 + (Real.exp (-2) + 0)) / 2) = (1 + Real.exp (-2 : ℝ)) / 2
  norm_num [Real.exp_zero]

/-- Claim C1 counterexample: on the two-segment list with `avg_logprob`
values 0 and -2 the code's derived confidence (`exp` of the mean, clamped)
is not the arithmetic mean of `exp(avg_logprob)` over the segments: the
former is `exp(-1) < 1/2` while the latter is `(1 + exp(-2))/2 > 1/2`. -/
theorem calculateConfidence_ne_specMeanExp :
    calculateConfidence twoSegments ≠ specMeanExpConfidence twoSegments := by
  rw [calculateConfidence_twoSegments, specMeanExpConfidence_twoSegments]
  have h1 := exp_neg_one_lt_half
  have h2 := Real.exp_pos (-2 : ℝ)
  intro h
  rw [h] at h1
  linarith

/-- Claim C1 (amended): in the verbose_json format the derived confidence is
`max 0 (min 1 (exp m))` where `m` is the arithmetic mean of `avg_logprob`
over the segments (the exponential of the mean, not the mean of the
exponentials), and it is exactly 0 when no segments are present. -/
theorem calculateConfidence_eq_clamped_exp_of_mean (segments : List TranscriptionSegment) :
    calculateConfidence [] = 0 ∧
    (segments.length ≠ 0 →
      calculateConfidence segments =
        max 0 (min 1 (Real.exp ((segments.map (fun s => s.avg_logprob)).sum / segments.length)))) := by
  constructor
  · simp [calculateConfidence]
  · intro h
    simp only [calculateConfidence, if_neg h]

/-- Witness for the amended claim C1 at a concrete one-segment input. -/
theorem calculateConfidence_eq_clamped_exp_of_mean_witness :
    calculateConfidence [⟨0, 0, 1, "hi", -1⟩] =
      max 0 (min 1 (Real.exp ((([⟨0, 0, 1, "hi", -1⟩] :
        List TranscriptionSegment).map (fun s => s.avg_logprob)).sum /
        ([⟨0, 0, 1, "hi", -1⟩] : List TranscriptionSegment).length))) :=
  (calculateConfidence_eq_clamped_exp_of_mean [⟨0, 0, 1, "hi", -1⟩]).2 (by simp)

/-- Claim C9: for every segment list, including lists whose `avg_logprob`
values are positive, the derived confidence lies in [0,1]; the empty list
yields exactly 0; and the nonempty case is by definition the explicitly
clamped value `max 0 (min 1 (exp mean))`. -/
theorem calculateConfidence_bounds (segments : List TranscriptionSegment) :
    0 ≤ calculateConfidence segments ∧ calculateConfidence segments ≤ 1 ∧
    calculateConfidence [] = 0 ∧
    calculateConfidence segments =
      (if segments.length = 0 then 0
       else max 0 (min 1 (Real.exp ((segments.map (fun s => s.avg_logprob)).sum / segments.length)))) := by
  refine ⟨?_, ?_, by simp [calculateConfidence], rfl⟩
  · unfold calculateConfidence
    split
    · exact le_refl 0
    · exact le_max_left 0 _
  · unfold calculateConfidence
    split
    · exact zero_le_one
    · exact max_le zero_le_one (min_le_left 1 _)

/-- An error thrown by one provider call: an `OpenAI.APIError` carrying an
HTTP status, or any other error (network failure and the like). -/
inductive CallError where
  | apiError (status : Nat) (msg : String)
  | otherError (msg : String)
deriving DecidableEq, Repr

/-- The outcome of one call to the provider. -/
inductive CallOutcome (α : Type) where
  | success (value : α)
  | failure (e : CallError)
deriving DecidableEq, Repr

/-- The statuses `retryWithBackoff` refuses to retry (errorHandler.ts lines
372-377): an `OpenAI.APIError` whose status is 400, 401 or 413. -/
def nonRetryable : CallError → Bool
  | CallError.apiError status _ => status == 400 || status == 401 || status == 413
  | CallError.otherError _ => false

/-- What one run of `retryWithBackoff` did: its result, the backoff sleeps it
performed (in ms, in order), and the indices of the calls it made to `fn`. -/
structure RetryTrace (α : Type) where
  result : Except CallError α
  delays : List Nat
  calls : List Nat

/-- The loop body of `WhisperService.retryWithBackoff` (errorHandler.ts lines
355-386), with `fuel = maxRetries - attempt` remaining loop iterations after
the current one. At `fuel = 0` the attempt is the last one
(`attempt === maxRetries`): the loop breaks and rethrows the error. Otherwise
a non-retryable error is rethrown at once, and any other error sleeps
`baseDelay * 2 ^ attempt` ms and retries. `outcomes n` is what the `n`-th
call of `fn` does. -/
def retryGo {α : Type} (outcomes : Nat → CallOutcome α) (baseDelay : Nat) :
    Nat → Nat → RetryTrace α
  | attempt, 0 =>
    match outcomes attempt with
    | CallOutcome.success v => ⟨Except.ok v, [], [attempt]⟩
    | CallOutcome.failure e => ⟨Except.error e, [], [attempt]⟩
  | attempt, fuel + 1 =>
    match outcomes attempt with
    | CallOutcome.success v => ⟨Except.ok v, [], [attempt]⟩
    | CallOutcome.failure e =>
      if nonRetryable e then ⟨Except.error e, [], [attempt]⟩
      else
        let delay := baseDelay * 2 ^ attempt
        let rest := retryGo outcomes baseDelay (attempt + 1) fuel
        ⟨rest.result, delay :: rest.delays, attempt :: rest.calls⟩

/-- Embedding of `WhisperService.retryWithBackoff(fn, maxRetries, baseDelay)`:
attempts run at indices 0 through `maxRetries` inclusive. -/
def retryWithBackoff {α : Type} (outcomes : Nat → CallOutcome α)
    (maxRetries baseDelay : Nat) : RetryTrace α :=
  retryGo outcomes baseDelay 0 maxRetries

/-- A provider that fails every call with an HTTP 500 (a transient,
retryable fault). -/
def persistent500 : Nat → CallOutcome Unit :=
  fun _ => CallOutcome.failure (CallError.apiError 500 "Internal Server Error")

/-- A provider that fails every call with an HTTP 404 — a 4xx status other
than 429 that is not in the code's non-retryable set. -/
def persistent404 : Nat → CallOutcome Unit :=
  fun _ => CallOutcome.failure (CallError.apiError 404 "Not Found")

/-- Claim C3 counterexample: with every call failing transiently (HTTP 500),
the retry loop as invoked by `transcribeAudio` (`maxRetries = 3`,
`baseDelay = 1000`) makes four calls — indices 0, 1, 2, 3 — with backoff
sleeps of 1 s, 2 s and 4 s, so more than the 3 total attempts the claim
allows, and a further attempt is made after the third. -/
theorem retryWithBackoff_four_attempts :
    (retryWithBackoff persistent500 3 1000).calls = [0, 1, 2, 3] ∧
    (retryWithBackoff persistent500 3 1000).delays = [1000, 2000, 4000] ∧
    3 < (retryWithBackoff persistent500 3 1000).calls.length := by
  refine ⟨rfl, rfl, ?_⟩
  decide

lemma retryGo_shape {α : Type} (outcomes : Nat → CallOutcome α) (baseDelay : Nat) :
    ∀ fuel attempt, ∃ k, 1 ≤ k ∧ k ≤ fuel + 1 ∧
      (retryGo outcomes baseDelay attempt fuel).calls = List.range' attempt k ∧
      (retryGo outcomes baseDelay attempt fuel).delays =
        (List.range' attempt (k - 1)).map (fun i => baseDelay * 2 ^ i) := by
  intro fuel
  induction fuel with
  | zero =>
    intro attempt
    refine ⟨1, le_refl 1, le_refl 1, ?_, ?_⟩ <;>
      · unfold retryGo
        cases outcomes attempt <;> simp [List.range']
  | succ n ih =>
    intro attempt
    cases houtcome : outcomes attempt with
    | success v =>
      refine ⟨1, le_refl 1, by omega, ?_, ?_⟩ <;>
        · unfold retryGo
          rw [houtcome]
          simp [List.range']
    | failure e =>
      cases hret : nonRetryable e with
      | true =>
        refine ⟨1, le_refl 1, by omega, ?_, ?_⟩ <;>
          · unfold retryGo
            rw [houtcome]
            simp [hret, List.range']
      | false =>
        obtain ⟨k, hk1, hk2, hcalls, hdelays⟩ := ih (attempt + 1)
        refine ⟨k + 1, by omega, by omega, ?_, ?_⟩
        · unfold retryGo
          rw [houtcome]
          simp only [hret, Bool.false_eq_true, if_false]
          rw [hcalls]
          simp [List.range']
        · unfold retryGo
          rw [houtcome]
          simp only [hret, Bool.false_eq_true, if_false]
          rw [hdelays]
          have hsucc : k + 1 - 1 = (k - 1) + 1 := by omega
          rw [hsucc]
          simp [List.range']

lemma retryGo_persistent {α : Type} (outcomes : Nat → CallOutcome α) (baseDelay : Nat)
    (h : ∀ n, ∃ e, outcomes n = CallOutcome.failure e ∧ nonRetryable e = false) :
    ∀ fuel attempt,
      (retryGo outcomes baseDelay attempt fuel).calls = List.range' attempt (fuel + 1) ∧
      (retryGo outcomes baseDelay attempt fuel).delays =
        (List.range' attempt fuel).map (fun i => baseDelay * 2 ^ i) := by
  intro fuel
  induction fuel with
  | zero =>
    intro attempt
    obtain ⟨e, he, _⟩ := h attempt
    constructor <;>
      · unfold retryGo
        rw [he]
        simp [List.range']
  | succ n ih =>
    intro attempt
    obtain ⟨e, he, hret⟩ := h attempt
    obtain ⟨ihc, ihd⟩ := ih (attempt + 1)
    constructor
    · unfold retryGo
      rw [he]
      simp only [hret, Bool.false_eq_true, if_false]
      rw [ihc]
      simp [List.range']
    · unfold retryGo
      rw [he]
      simp only [hret, Bool.false_eq_true, if_false]
      rw [ihd]
      simp [List.range']

/-- Claim C3 (amended): as invoked by `transcribeAudio` (`maxRetries = 3`,
`baseDelay = 1000`) the retry loop makes at most 4 attempts in total — the
initial attempt plus up to 3 retries — with backoff sleeps of
`1000 * 2 ^ i` ms (1 s, 2 s, 4 s) before the 2nd, 3rd and 4th attempts; when
every call fails transiently it makes exactly the attempts 0, 1, 2, 3 with
sleeps 1 s, 2 s, 4 s, and none after the fourth. -/
theorem retryWithBackoff_attempt_bound {α : Type} (outcomes : Nat → CallOutcome α) :
    (∃ k, 1 ≤ k ∧ k ≤ 4 ∧
      (retryWithBackoff outcomes 3 1000).calls = List.range k ∧
      (retryWithBackoff outcomes 3 1000).delays =
        (List.range (k - 1)).map (fun i => 1000 * 2 ^ i)) ∧
    ((∀ n, ∃ e, outcomes n = CallOutcome.failure e ∧ nonRetryable e = false) →
      (retryWithBackoff outcomes 3 1000).calls = [0, 1, 2, 3] ∧
      (retryWithBackoff outcomes 3 1000).delays = [1000, 2000, 4000]) := by
  constructor
  · obtain ⟨k, hk1, hk2, hcalls, hdelays⟩ := retryGo_shape outcomes 1000 3 0
    exact ⟨k, hk1, hk2, by rw [retryWithBackoff, hcalls, List.range_eq_range'],
      by rw [retryWithBackoff, hdelays, List.range_eq_range']⟩
  · intro h
    obtain ⟨hc, hd⟩ := retryGo_persistent outcomes 1000 h 3 0
    constructor
    · rw [retryWithBackoff, hc]
      rfl
    · rw [retryWithBackoff, hd]
      rfl

/-- Witness for the amended claim C3: the persistent-500 provider reaches the
bound exactly. -/
theorem retryWithBackoff_attempt_bound_witness :
    (retryWithBackoff persistent500 3 1000).calls = [0, 1, 2, 3] ∧
    (retryWithBackoff persistent500 3 1000).delays = [1000, 2000, 4000] :=
  (retryWithBackoff_attempt_bound persistent500).2
    (fun _ => ⟨CallError.apiError 500 "Internal Server Error", rfl, rfl⟩)

/-- Claim C6 counterexample: an HTTP 404 — a 4xx status other than 429 —
does not propagate immediately: the loop retries it like a transient fault,
making all four attempts with backoff sleeps 1 s, 2 s, 4 s. -/
theorem retryWithBackoff_retries_404 :
    (retryWithBackoff persistent404 3 1000).calls = [0, 1, 2, 3] ∧
    (retryWithBackoff persistent404 3 1000).delays = [1000, 2000, 4000] ∧
    (retryWithBackoff persistent404 3 1000).result =
      Except.error (CallError.apiError 404 "Not Found") := by
  exact ⟨rfl, rfl, rfl⟩

/-- Claim C6 (amended): exactly the statuses 400 (malformed request), 401
(unauthorized) and 413 (payload too large) are non-retryable: an error with
one of those statuses on the first call propagates to the caller at once,
with a single call made, no backoff sleep, and the error surfaced unchanged;
other 4xx statuses (404 among them, see the counterexample) are retried. -/
theorem retryWithBackoff_nonretryable_immediate {α : Type}
    (outcomes : Nat → CallOutcome α) (s : Nat) (msg : String)
    (hs : s = 400 ∨ s = 401 ∨ s = 413)
    (h0 : outcomes 0 = CallOutcome.failure (CallError.apiError s msg)) :
    retryWithBackoff outcomes 3 1000 =
      ⟨Except.error (CallError.apiError s msg), [], [0]⟩ := by
  have hret : nonRetryable (CallError.apiError s msg) = true := by
    rcases hs with h | h | h <;> subst h <;> rfl
  show retryGo outcomes 1000 0 3 = _
  unfold retryGo
  rw [h0]
  simp [hret]

/-- A provider whose first call fails with an HTTP 401. -/
def unauthorized401 : Nat → CallOutcome Unit :=
  fun _ => CallOutcome.failure (CallError.apiError 401 "Unauthorized")

/-- Witness for the amended claim C6 at status 401. -/
theorem retryWithBackoff_nonretryable_immediate_witness :
    retryWithBackoff unauthorized401 3 1000 =
      ⟨Except.error (CallError.apiError 401 "Unauthorized"), [], [0]⟩ :=
  retryWithBackoff_nonretryable_immediate unauthorized401 401 "Unauthorized"
    (Or.inr (Or.inl rfl)) rfl

/-- The error `transcribeAudio` surfaces to its caller (errorHandler.ts lines
337-352): the catch block maps an `OpenAI.APIError` with status 429, 400 or
413 to a specific message and wraps every other error — the oversized-file
`Error` thrown before the provider call included — as
`Transcription failed: <message>`. -/
inductive WhisperError where
  | rateLimitExceeded
  | invalidRequest (msg : String)
  | fileTooLarge
  | transcriptionFailed (msg : String)
deriving DecidableEq, Repr

/-- The message carried by a `CallError`. -/
def callErrorMessage : CallError → String
  | CallError.apiError _ msg => msg
  | CallError.otherError msg => msg

/-- The error mapping of `transcribeAudio`'s catch block. -/
def mapTranscriptionError (e : CallError) : WhisperError :=
  match e with
  | CallError.apiError 429 _ => WhisperError.rateLimitExceeded
  | CallError.apiError 400 msg => WhisperError.invalidRequest msg
  | CallError.apiError 413 _ => WhisperError.fileTooLarge
  | _ => WhisperError.transcriptionFailed ("Transcription failed: " ++ callErrorMessage e)

/-- Embedding of `WhisperService.maxFileSize`: 25 MB. -/
def maxFileSize : Nat := 25 * 1024 * 1024

/-- The message of the `Error` thrown when the input file is over the size
ceiling (errorHandler.ts line 275). -/
def oversizeMessage (size : Nat) : String :=
  "File size " ++ toString size ++ " exceeds maximum limit of " ++
    toString maxFileSize ++ " bytes"

/-- What one run of `transcribeAudio` did: its result, the indices of the
provider calls it made, and the backoff sleeps it performed. -/
structure TranscribeTrace (α : Type) where
  result : Except WhisperError α
  providerCalls : List Nat
  delays : List Nat

/-- Embedding of `WhisperService.transcribeAudio` (errorHandler.ts lines 264-353), reduced
to its control flow: check the audio file's size against `maxFileSize` and
throw before any provider call if it is over; otherwise call the provider
through `retryWithBackoff(fn, 3, 1000)` and map any surfaced error with the
catch block. The fixed self-imposed rate-limit sleep before the first call
carries no information and is not recorded. -/
def transcribeAudio {α : Type} (fileSize : Nat) (outcomes : Nat → CallOutcome α) :
    TranscribeTrace α :=
  if maxFileSize < fileSize then
    ⟨Except.error (WhisperError.transcriptionFailed
      ("Transcription failed: " ++ oversizeMessage fileSize)), [], []⟩
  else
    let t := retryWithBackoff outcomes 3 1000
    match t.result with
    | Except.ok v => ⟨Except.ok v, t.calls, t.delays⟩
    | Except.error e => ⟨Except.error (mapTranscriptionError e), t.calls, t.delays⟩

/-- A log line with its level; `AudioExtractorService` emits `info` lines on
its success path, `error` lines on failure, and no `warn` line anywhere. -/
inductive LogLevel where
  | info
  | warn
  | error
deriving DecidableEq, Repr

/-- One emitted log event. -/
structure LogEvent where
  level : LogLevel
  message : String
deriving DecidableEq, Repr

/-- The metadata `extractAudio` reports (the `AudioMetadata` interface of
src/unnamed/part_010). -/
structure AudioMetadata where
  duration : ℚ
  sampleRate : Nat
  channels : Nat
  bitRate : String
  format : String
  size : Nat
deriving DecidableEq, Repr

/-- The options bundle of `extractAudio`, with the defaults of
src/unnamed/part_010 lines 271-277. -/
structure AudioExtractionOptions where
  outputFormat : String
  sampleRate : Nat
  channels : Nat
  bitRate : String
deriving DecidableEq, Repr

/-- The filesystem and ffmpeg behaviour `extractAudio` runs against: whether
the input file is accessible, ffmpeg's exit code and stderr, the byte size
and probed duration of the produced file, and the clock value used in the
generated output name. -/
structure ExtractionEnv where
  videoBaseName : String
  inputExists : Bool
  ffmpegExit : Nat
  ffmpegStderr : String
  producedSize : Nat
  producedDuration : ℚ
  now : Nat
deriving DecidableEq, Repr

/-- Embedding of `AudioExtractorService.extractAudio` (src/unnamed/part_010 lines
261-311): validate that the input exists, run ffmpeg, probe the produced
file, and return its path and metadata. The function logs `info` lines on
the way and wraps any failure as `Failed to extract audio: <message>`; it
performs no check of the produced size against any ceiling and emits no
`warn` line. -/
def extractAudio (env : ExtractionEnv) (opts : AudioExtractionOptions) :
    Except String (String × AudioMetadata) × List LogEvent :=
  if env.inputExists = false then
    (Except.error "Failed to extract audio: input file is not accessible",
     [⟨LogLevel.error, "Audio extraction failed"⟩])
  else if env.ffmpegExit ≠ 0 then
    (Except.error ("Failed to extract audio: FFmpeg failed with code " ++
        toString env.ffmpegExit ++ ": " ++ env.ffmpegStderr),
     [⟨LogLevel.info, "Starting audio extraction"⟩,
      ⟨LogLevel.error, "Audio extraction failed"⟩])
  else
    let audioPath := env.videoBaseName ++ "_" ++ toString env.now ++ "." ++ opts.outputFormat
    (Except.ok (audioPath,
      ⟨env.producedDuration, opts.sampleRate, opts.channels, opts.bitRate,
        opts.outputFormat, env.producedSize⟩),
     [⟨LogLevel.info, "Starting audio extraction"⟩,
      ⟨LogLevel.info, "Audio extraction completed"⟩])

/-- The options the transcription worker passes to `extractAudio`
(src/unnamed/part_008 lines 482-490), equal to the defaults. -/
def workerExtractionOptions : AudioExtractionOptions :=
  ⟨"mp3", 16000, 1, "64k"⟩

/-- A successful extraction whose produced file is 26 MB — over the 25 MB
provider ceiling. -/
def env26MB : ExtractionEnv :=
  ⟨"video", true, 0, "", 26 * 1024 * 1024, 60, 1700000000000⟩

/-- Claim C7 counterexample: when extraction produces a 26 MB file (over the
25 MB ceiling) the extraction stage succeeds without emitting any `warn`-level
log line — it does not warn, contrary to the claim. (The transcription half
of the claim does hold; see the amended theorem.) -/
theorem extractAudio_oversized_no_warning :
    maxFileSize < (26 : Nat) * 1024 * 1024 ∧
    (extractAudio env26MB workerExtractionOptions).1 =
      Except.ok ("video_1700000000000.mp3",
        ⟨60, 16000, 1, "64k", "mp3", 26 * 1024 * 1024⟩) ∧
    ((extractAudio env26MB workerExtractionOptions).2.filter
      (fun l => l.level == LogLevel.warn)) = [] := by
  refine ⟨by norm_num [maxFileSize], rfl, rfl⟩

/-- Claim C7 (amended): the extraction stage performs no size check at all —
it neither warns nor fails on an oversized produced file (no run emits a
`warn`-level line) — while the Transcription Stage rejects an input over the
25 MB ceiling before any provider call is made, with zero provider calls,
zero backoff sleeps, and an explicit, catchable error whose message names the
size, rather than truncating the input. -/
theorem oversized_input_rejected_before_provider_call {α : Type}
    (env : ExtractionEnv) (opts : AudioExtractionOptions)
    (fileSize : Nat) (outcomes : Nat → CallOutcome α)
    (hsize : maxFileSize < fileSize) :
    ((extractAudio env opts).2.filter (fun l => l.level == LogLevel.warn)) = [] ∧
    (transcribeAudio fileSize outcomes).providerCalls = [] ∧
    (transcribeAudio fileSize outcomes).delays = [] ∧
    (transcribeAudio fileSize outcomes).result =
      Except.error (WhisperError.transcriptionFailed
        ("Transcription failed: " ++ oversizeMessage fileSize)) := by
  refine ⟨?_, ?_, ?_, ?_⟩
  · unfold extractAudio
    split
    · rfl
    · split <;> rfl
  all_goals
    unfold transcribeAudio
    rw [if_pos hsize]

/-- Witness for the amended claim C7 at the 26 MB input. -/
theorem oversized_input_rejected_before_provider_call_witness :
    ((extractAudio env26MB workerExtractionOptions).2.filter
      (fun l => l.level == LogLevel.warn)) = [] ∧
    (transcribeAudio (26 * 1024 * 1024) persistent500).providerCalls = [] ∧
    (transcribeAudio (26 * 1024 * 1024) persistent500).delays = [] ∧
    (transcribeAudio (26 * 1024 * 1024) persistent500).result =
      Except.error (WhisperError.transcriptionFailed
        ("Transcription failed: " ++ oversizeMessage (26 * 1024 * 1024))) :=
  oversized_input_rejected_before_provider_call env26MB workerExtractionOptions
    (26 * 1024 * 1024) persistent500 (by norm_num [maxFileSize])

/-- One file in the shared scratch directory for extracted audio, with its
modification time in ms. -/
structure TempFile where
  name : String
  mtime : Nat
deriving DecidableEq, Repr

/-- Embedding of `AudioExtractorService.cleanupAudioFile` (src/unnamed/part_010 lines
477-484): unlink exactly the named file; failures are logged, not raised. -/
def cleanupAudioFile (files : List TempFile) (audioPath : String) : List TempFile :=
  files.filter (fun f => !(f.name == audioPath))

/-- Embedding of `AudioExtractorService.cleanupOldFiles` (src/unnamed/part_010 lines
486-504): unlink every file in the scratch directory whose age
`now - mtime` exceeds `maxAgeMs`. -/
def cleanupOldFiles (files : List TempFile) (now maxAgeMs : Nat) : List TempFile :=
  files.filter (fun f => !(decide (maxAgeMs < now - f.mtime)))

/-- The two terminal states of a transcription job. -/
inductive JobOutcome where
  | completed
  | failed
deriving DecidableEq, Repr

/-- The cleanup `TranscriptionWorker.processTranscriptionJob` performs at a
terminal state (src/unnamed/part_008 lines 530-531 and 547-563): on
`completed` it deletes the job's own audio file
(`cleanupAudioFile(audioPath)`); on `failed` it calls `cleanupOldFiles(0)`,
deleting every file in the shared scratch directory older than 0 ms. -/
def jobCleanup (outcome : JobOutcome) (files : List TempFile)
    (audioPath : String) (now : Nat) : List TempFile :=
  match outcome with
  | JobOutcome.completed => cleanupAudioFile files audioPath
  | JobOutcome.failed => cleanupOldFiles files now 0

/-- Claim C8 counterexample: a job that reaches `failed` deletes another
concurrently running job's uniquely-named file from the shared scratch
directory: here the other job's file `other-job.mp3` (age 5 ms, not this
job's `this-job.mp3`) is removed by the failed job's cleanup. -/
theorem jobCleanup_failed_deletes_other_jobs_file :
    ("other-job.mp3" ≠ "this-job.mp3") ∧
    jobCleanup JobOutcome.failed [⟨"other-job.mp3", 5⟩] "this-job.mp3" 10 = [] := by
  exact ⟨by decide, rfl⟩

/-- Claim C8 (amended): on `completed` the cleanup deletes only the job's own
audio file — every other job's file survives — but on `failed` the cleanup
runs `cleanupOldFiles(0)` over the shared scratch directory, deleting every
file of positive age, other running jobs' files included; only files whose
modification time is at least `now` survive a failed job's cleanup. -/
theorem jobCleanup_scope (files : List TempFile) (audioPath : String) (now : Nat) :
    jobCleanup JobOutcome.completed files audioPath now =
      files.filter (fun f => !(f.name == audioPath)) ∧
    (∀ f ∈ files, f.name ≠ audioPath →
      f ∈ jobCleanup JobOutcome.completed files audioPath now) ∧
    jobCleanup JobOutcome.failed files audioPath now =
      files.filter (fun f => !(decide (0 < now - f.mtime))) ∧
    (∀ f ∈ files, 0 < now - f.mtime →
      f ∉ jobCleanup JobOutcome.failed files audioPath now) := by
  refine ⟨rfl, ?_, rfl, ?_⟩
  · intro f hf hne
    simp only [jobCleanup, cleanupAudioFile, List.mem_filter]
    exact ⟨hf, by simp [hne]⟩
  · intro f hf hage
    simp only [jobCleanup, cleanupOldFiles, List.mem_filter]
    intro hmem
    have := hmem.2
    simp [hage] at this

/-- Witness for the amended claim C8: a completed job keeps the other job's
file, a failed job with the same directory deletes it. -/
theorem jobCleanup_scope_witness :
    (⟨"other-job.mp3", 5⟩ : TempFile) ∈
      jobCleanup JobOutcome.completed [⟨"other-job.mp3", 5⟩] "this-job.mp3" 10 ∧
    (⟨"other-job.mp3", 5⟩ : TempFile) ∉
      jobCleanup JobOutcome.failed [⟨"other-job.mp3", 5⟩] "this-job.mp3" 10 :=
  ⟨(jobCleanup_scope [⟨"other-job.mp3", 5⟩] "this-job.mp3" 10).2.1
      ⟨"other-job.mp3", 5⟩ (by decide) (by decide),
   (jobCleanup_scope [⟨"other-job.mp3", 5⟩] "this-job.mp3" 10).2.2.2
      ⟨"other-job.mp3", 5⟩ (by decide) (by decide)⟩

/-- JavaScript `text.split(' ')` on the character list: split on every single
space, keeping empty pieces (so `"".split(' ')` is `[""]`). -/
def splitCharsOnSpace : List Char → List (List Char)
  | [] => [[]]
  | c :: rest =>
    let r := splitCharsOnSpace rest
    if c = ' ' then [] :: r
    else
      match r with
      | w :: ws => (c :: w) :: ws
      | [] => [[c]]

/-- JavaScript `text.split(' ')`. -/
def jsSplitSpace (s : String) : List String :=
  (splitCharsOnSpace s.data).map String.mk

/-- JavaScript `String.prototype.trim`: drop whitespace from both ends. -/
def jsTrim (s : String) : String :=
  String.mk (((s.data.dropWhile (fun c => c.isWhitespace)).reverse.dropWhile
    (fun c => c.isWhitespace)).reverse)

/-- One iteration of the `for (const word of words)` loop of
`NotionService.chunkText` (NotionService.ts lines 619-631), carrying the
chunks pushed so far and `currentChunk`. Note the branch for a word longer
than `maxLength` with an empty `currentChunk` pushes the word whole. -/
def chunkStep (maxLength : Nat) (acc : List String × String) (word : String) :
    List String × String :=
  let chunks := acc.1
  let currentChunk := acc.2
  if maxLength < (currentChunk ++ word).length then
    if currentChunk ≠ "" then (chunks ++ [jsTrim currentChunk], word ++ " ")
    else (chunks ++ [word], currentChunk)
  else (chunks, currentChunk ++ word ++ " ")

/-- Embedding of `NotionService.chunkText` (NotionService.ts lines 610-638). -/
def chunkText (text : String) (maxLength : Nat) : List String :=
  if text.length ≤ maxLength then [text]
  else
    let words := jsSplitSpace text
    let r := words.foldl (chunkStep maxLength) ([], "")
    if r.2 ≠ "" then r.1 ++ [jsTrim r.2] else r.1

/-- A single word of 1901 `a` characters — longer than the 1900-character
per-block ceiling `buildPageContent` passes to `chunkText`. -/
def longWord : String := String.mk (List.replicate 1901 'a')

lemma splitCharsOnSpace_of_no_space :
    ∀ cs : List Char, (∀ c ∈ cs, c ≠ ' ') → splitCharsOnSpace cs = [cs] := by
  intro cs
  induction cs with
  | nil => intro _; rfl
  | cons c rest ih =>
    intro h
    have hc : c ≠ ' ' := h c (by simp)
    have hr : splitCharsOnSpace rest = [rest] := ih (fun x hx => h x (by simp [hx]))
    simp only [splitCharsOnSpace, hr, if_neg hc]

lemma longWord_data : longWord.data = List.replicate 1901 'a' := rfl

lemma longWord_length : longWord.length = 1901 := by
  show longWord.data.length = 1901
  rw [longWord_data, List.length_replicate]

lemma jsSplitSpace_longWord : jsSplitSpace longWord = [longWord] := by
  unfold jsSplitSpace
  rw [longWord_data, splitCharsOnSpace_of_no_space _ ?_]
  · rfl
  · intro c hc
    rw [List.eq_of_mem_replicate hc]
    decide

lemma empty_append_longWord : ("" ++ longWord : String) = longWord := rfl

lemma chunkStep_longWord : chunkStep 1900 ([], "") longWord = ([longWord], "") := by
  have h2 : 1900 < (("" : String) ++ longWord).length := by
    rw [empty_append_longWord, longWord_length]; omega
  unfold chunkStep
  show (if 1900 < (("" : String) ++ longWord).length then
          if ("" : String) ≠ "" then (([] : List String) ++ [jsTrim ""], longWord ++ " ")
          else (([] : List String) ++ [longWord], "")
        else (([] : List String), "" ++ longWord ++ " ")) = ([longWord], "")
  rw [if_pos h2, if_neg (fun h : ("" : String) ≠ "" => h rfl)]
  rfl

lemma chunkText_longWord : chunkText longWord 1900 = [longWord] := by
  have h1 : ¬ (longWord.length ≤ 1900) := by rw [longWord_length]; omega
  unfold chunkText
  rw [if_neg h1, jsSplitSpace_longWord]
  show (if (List.foldl (chunkStep 1900) ([], "") [longWord]).2 ≠ ""
        then (List.foldl (chunkStep 1900) ([], "") [longWord]).1 ++
          [jsTrim (List.foldl (chunkStep 1900) ([], "") [longWord]).2]
        else (List.foldl (chunkStep 1900) ([], "") [longWord]).1) = [longWord]
  rw [List.foldl_cons, List.foldl_nil, chunkStep_longWord]
  show (if (("" : String) ≠ "") then [longWord] ++ [jsTrim ""] else [longWord]) = [longWord]
  rw [if_neg (fun h : ("" : String) ≠ "" => h rfl)]

/-- Claim C4, evaluated at the failing input: on a single 1901-character word
`chunkText(text, 1900)` returns the word as one unsplit block — one block,
not more than one, of length 1901 > 1900 — although the code's own comment
at the branch says "Word is longer than maxLength, split it". -/
theorem chunkText_leaves_long_word_unsplit :
    1900 < longWord.length ∧
    chunkText longWord 1900 = [longWord] ∧
    (chunkText longWord 1900).length = 1 ∧
    ∃ b ∈ chunkText longWord 1900, 1900 < b.length := by
  refine ⟨by rw [longWord_length]; omega, chunkText_longWord, ?_, ?_⟩
  · rw [chunkText_longWord]
    rfl
  · exact ⟨longWord, by rw [chunkText_longWord]; exact List.mem_singleton.mpr rfl,
      by rw [longWord_length]; omega⟩

/-- Embedding of `NotionService.capitalizeFirst`: JavaScript
`str.charAt(0).toUpperCase() + str.slice(1).toLowerCase()`. -/
def capitalizeFirst (s : String) : String :=
  match s.data with
  | [] => ""
  | c :: cs => String.mk (c.toUpper :: cs.map Char.toLower)

/-- JavaScript truthiness of an optional number (`0` and absence are falsy),
as used by `transcriptData.duration ? ... : undefined`. -/
def jsTruthyNum : Option ℚ → Bool
  | none => false
  | some x => decide (x ≠ 0)

/-- JavaScript truthiness of an optional string (`""` and absence are
falsy). -/
def jsTruthyStr : Option String → Bool
  | none => false
  | some s => decide (s ≠ "")

/-- JavaScript `Math.round`. -/
def jsRound (q : ℚ) : Int := ⌊q + 1 / 2⌋

/-- JavaScript `Number.prototype.toFixed(1)`, for the non-negative values the
service formats. -/
def toFixed1 (q : ℚ) : String :=
  let n := jsRound (q * 10)
  toString (n / 10) ++ "." ++ toString ((n % 10).natAbs)

/-- A JavaScript `Date` as the service renders it: the date part of
`toISOString()` and the `toLocaleDateString()` text. -/
structure JsDate where
  isoDate : String
  localeDate : String
deriving DecidableEq, Repr

/-- The `TranscriptPageData` interface of NotionService.ts. -/
structure TranscriptPageData where
  title : String
  content : String
  videoId : String
  videoFilename : String
  duration : Option ℚ
  confidence : Option ℚ
  language : Option String
  uploadDate : JsDate
  transcriptionDate : JsDate
deriving DecidableEq, Repr

/-- The value of one property in a page create/update request. -/
inductive PropValue where
  | titleProp (content : String)
  | richText (content : String)
  | number (value : ℚ)
  | selectName (name : String)
  | dateStart (start : String)
deriving DecidableEq, Repr

/-- The `properties` object `createTranscriptPage` sends (NotionService.ts
lines 301-364), after the loop that removes the `undefined` entries:
`Duration`, `Confidence` and `Language` are present exactly when the
corresponding datum is truthy; the object is built from the transcript data
alone — no database schema is consulted. -/
def createProperties (d : TranscriptPageData) : List (String × PropValue) :=
  ([("Title", some (PropValue.titleProp d.title)),
    ("Video File", some (PropValue.richText d.videoFilename)),
    ("Duration", if jsTruthyNum d.duration
      then some (PropValue.number (jsRound (d.duration.getD 0))) else none),
    ("Confidence", if jsTruthyNum d.confidence
      then some (PropValue.number ((d.confidence.getD 0) / 100)) else none),
    ("Language", if jsTruthyStr d.language
      then some (PropValue.selectName (capitalizeFirst (d.language.getD ""))) else none),
    ("Upload Date", some (PropValue.dateStart d.uploadDate.isoDate)),
    ("Transcription Date", some (PropValue.dateStart d.transcriptionDate.isoDate)),
    ("Video ID", some (PropValue.richText d.videoId)),
    ("Status", some (PropValue.selectName "Synced"))]).filterMap
    (fun kv => kv.2.map (fun v => (kv.1, v)))

/-- The `properties` object `updateTranscriptPage` sends (NotionService.ts
lines 404-427). -/
def updateProperties (d : TranscriptPageData) : List (String × PropValue) :=
  [("Title", PropValue.titleProp d.title),
   ("Transcription Date", PropValue.dateStart d.transcriptionDate.isoDate),
   ("Status", PropValue.selectName "Updated")]

/-- A content block of a transcript page. -/
inductive NotionBlock where
  | heading2 (text : String)
  | paragraph (text : String)
deriving DecidableEq, Repr

/-- The detail lines of the "Video Information" paragraph
(NotionService.ts lines 503-518). -/
def buildDetails (d : TranscriptPageData) : List String :=
  ["**File:** " ++ d.videoFilename,
   "**Video ID:** " ++ d.videoId,
   "**Upload Date:** " ++ d.uploadDate.localeDate,
   "**Transcription Date:** " ++ d.transcriptionDate.localeDate]
  ++ (if jsTruthyNum d.duration
      then ["**Duration:** " ++ toString (jsRound (d.duration.getD 0)) ++ " seconds"] else [])
  ++ (if jsTruthyNum d.confidence
      then ["**Confidence:** " ++ toFixed1 ((d.confidence.getD 0) * 100) ++ "%"] else [])
  ++ (if jsTruthyStr d.language
      then ["**Language:** " ++ capitalizeFirst (d.language.getD "")] else [])

/-- Embedding of `NotionService.buildPageContent` (NotionService.ts lines 483-572): a
heading, the details paragraph, a heading, then one paragraph per chunk of
the transcript body split by `chunkText(content, 1900)`. -/
def buildPageContent (d : TranscriptPageData) : List NotionBlock :=
  [NotionBlock.heading2 "Video Information",
   NotionBlock.paragraph (String.intercalate "\n" (buildDetails d)),
   NotionBlock.heading2 "Transcript"]
  ++ (chunkText d.content 1900).map NotionBlock.paragraph

/-- One page of the external workspace: its identifier, its property values
and its content blocks. -/
structure NotionPage where
  id : Nat
  properties : List (String × PropValue)
  blocks : List NotionBlock
deriving DecidableEq, Repr

/-- One database of the external workspace: its schema (the set of named
fields pages of it may carry) and its pages. Model of the external document
workspace of spec section 6, which NotionService runs against. -/
structure NotionDatabase where
  schemaFields : List String
  pages : List NotionPage
  nextPageId : Nat
deriving DecidableEq, Repr

/-- The property of a page under a given name. -/
def lookupProp (p : NotionPage) (key : String) : Option PropValue :=
  (p.properties.find? (fun kv => kv.1 == key)).map (fun kv => kv.2)

/-- Whether a page's `Video ID` rich-text property equals the given video
identifier — the filter of the `databases.query` call in
`findExistingTranscript` (NotionService.ts lines 246-254). -/
def pageVideoIdMatches (p : NotionPage) (videoId : String) : Bool :=
  match lookupProp p "Video ID" with
  | some (PropValue.richText v) => v == videoId
  | _ => false

/-- The result list of the `databases.query` call. -/
def queryByVideoId (db : NotionDatabase) (videoId : String) : List NotionPage :=
  db.pages.filter (fun p => pageVideoIdMatches p videoId)

/-- The workspace's `pages.create` endpoint: creating a page whose request
names a property the database schema lacks fails with a validation error
(the behaviour of the external platform the spec's section 4.6 pre-check
exists to avoid); otherwise the page is appended with a fresh id. -/
def pagesCreate (db : NotionDatabase) (props : List (String × PropValue))
    (children : List NotionBlock) : NotionDatabase × Except String Nat :=
  if props.all (fun kv => db.schemaFields.contains kv.1) then
    ({ db with
        pages := db.pages ++ [⟨db.nextPageId, props, children⟩],
        nextPageId := db.nextPageId + 1 },
     Except.ok db.nextPageId)
  else
    (db, Except.error "Validation error: property does not exist")

/-- Replace or append one property value. -/
def setProp (ps : List (String × PropValue)) (key : String) (v : PropValue) :
    List (String × PropValue) :=
  if ps.any (fun kv => kv.1 == key) then
    ps.map (fun kv => if kv.1 == key then (key, v) else kv)
  else ps ++ [(key, v)]

/-- The workspace's `pages.update` endpoint: merge the named property values
into the page, failing with a validation error when a named property is not
in the schema. -/
def pagesUpdate (db : NotionDatabase) (pageId : Nat)
    (props : List (String × PropValue)) : NotionDatabase × Except String Unit :=
  if props.all (fun kv => db.schemaFields.contains kv.1) then
    ({ db with
        pages := db.pages.map (fun p =>
          if p.id == pageId then
            { p with properties := props.foldl (fun acc kv => setProp acc kv.1 kv.2) p.properties }
          else p) },
     Except.ok ())
  else
    (db, Except.error "Validation error: property does not exist")

/-- The `blocks.children.list` / `blocks.delete` / `blocks.children.append`
sequence of `updateTranscriptPage`, which replaces a page's content. -/
def replaceBlocks (db : NotionDatabase) (pageId : Nat)
    (children : List NotionBlock) : NotionDatabase :=
  { db with
      pages := db.pages.map (fun p =>
        if p.id == pageId then { p with blocks := children } else p) }

/-- The `SyncResult` interface of NotionService.ts. -/
structure SyncResult where
  success : Bool
  pageId : Option Nat
  pageUrl : Option String
  error : Option String
  duplicate : Option Bool
deriving DecidableEq, Repr

/-- Embedding of `NotionService.findExistingTranscript` (NotionService.ts lines 239-272):
`exists=true` with the first matching page's id when the query returns
matches; `exists=false` when it returns none — and also, through the catch
block, whenever the query throws for any reason. -/
def findExistingTranscript (queryResult : Except String (List NotionPage)) :
    Bool × Option Nat :=
  match queryResult with
  | Except.ok (p :: _) => (true, some p.id)
  | Except.ok [] => (false, none)
  | Except.error _ => (false, none)

/-- The page URL the workspace reports for a created page. -/
def pageUrlOf (pageId : Nat) : String :=
  "https://notion.example/" ++ toString pageId

/-- Embedding of `NotionService.updateTranscriptPage` (NotionService.ts lines 396-478):
update the Title / Transcription Date / Status properties, replace the
content blocks, and answer `duplicate=true` with the page's id. -/
def updateTranscriptPage (db : NotionDatabase) (pageId : Nat)
    (d : TranscriptPageData) : NotionDatabase × SyncResult :=
  match pagesUpdate db pageId (updateProperties d) with
  | (db1, Except.ok _) =>
    (replaceBlocks db1 pageId (buildPageContent d),
     ⟨true, some pageId, none, none, some true⟩)
  | (db1, Except.error msg) =>
    (db1, ⟨false, none, none, some msg, none⟩)

/-- Embedding of `NotionService.createTranscriptPage` (NotionService.ts lines 277-391):
look for an existing page with this video id (`queryFails` makes that query
throw, which the catch in `findExistingTranscript` turns into
`exists=false`); update it in place when found, otherwise create a new page
from `createProperties` and `buildPageContent`. -/
def createTranscriptPage (db : NotionDatabase) (queryFails : Bool)
    (d : TranscriptPageData) : NotionDatabase × SyncResult :=
  match findExistingTranscript
      (if queryFails then Except.error "network error"
       else Except.ok (queryByVideoId db d.videoId)) with
  | (true, some pageId) => updateTranscriptPage db pageId d
  | _ =>
    match pagesCreate db (createProperties d) (buildPageContent d) with
    | (db1, Except.ok pageId) =>
      (db1, ⟨true, some pageId, some (pageUrlOf pageId), none, some false⟩)
    | (db1, Except.error msg) =>
      (db1, ⟨false, none, none, some msg, none⟩)

/-- The schema `createTranscriptDatabase` defines (NotionService.ts lines
167-213). -/
def standardSchema : List String :=
  ["Title", "Video File", "Duration", "Confidence", "Language",
   "Upload Date", "Transcription Date", "Video ID", "Status"]

/-- The standard schema with the `Duration` field absent. -/
def schemaNoDuration : List String :=
  ["Title", "Video File", "Confidence", "Language",
   "Upload Date", "Transcription Date", "Video ID", "Status"]

lemma createProperties_all_standard (d : TranscriptPageData) :
    (createProperties d).all (fun kv => standardSchema.contains kv.1) = true := by
  cases hdur : jsTruthyNum d.duration <;>
    cases hconf : jsTruthyNum d.confidence <;>
      cases hlang : jsTruthyStr d.language <;>
        simp only [createProperties, hdur, hconf, hlang] <;> rfl

lemma createProperties_all_noDuration (d : TranscriptPageData)
    (hdur : jsTruthyNum d.duration = false) :
    (createProperties d).all (fun kv => schemaNoDuration.contains kv.1) = true := by
  cases hconf : jsTruthyNum d.confidence <;>
    cases hlang : jsTruthyStr d.language <;>
      simp only [createProperties, hdur, hconf, hlang] <;> rfl

lemma createProperties_find_videoId (d : TranscriptPageData) :
    (createProperties d).find? (fun kv => kv.1 == "Video ID") =
      some ("Video ID", PropValue.richText d.videoId) := by
  cases hdur : jsTruthyNum d.duration <;>
    cases hconf : jsTruthyNum d.confidence <;>
      cases hlang : jsTruthyStr d.language <;>
        simp only [createProperties, hdur, hconf, hlang] <;> rfl

lemma createProperties_duration_key (d : TranscriptPageData) :
    (createProperties d).any (fun kv => kv.1 == "Duration") = jsTruthyNum d.duration := by
  cases hdur : jsTruthyNum d.duration <;>
    cases hconf : jsTruthyNum d.confidence <;>
      cases hlang : jsTruthyStr d.language <;>
        simp only [createProperties, hdur, hconf, hlang] <;> rfl

lemma created_page_matches (d : TranscriptPageData) (n : Nat) (blocks : List NotionBlock) :
    pageVideoIdMatches ⟨n, createProperties d, blocks⟩ d.videoId = true := by
  unfold pageVideoIdMatches lookupProp
  rw [show (⟨n, createProperties d, blocks⟩ : NotionPage).properties =
    createProperties d from rfl]
  rw [createProperties_find_videoId]
  simp

lemma find?_map_setProp (ps : List (String × PropValue)) (key target : String)
    (v : PropValue) (h : (key == target) = false) :
    ((ps.map (fun kv => if kv.1 == key then (key, v) else kv)).find?
        (fun kv => kv.1 == target)) =
      ps.find? (fun kv => kv.1 == target) := by
  induction ps with
  | nil => rfl
  | cons hd tl ih =>
    simp only [List.map_cons]
    by_cases hh : (hd.1 == key) = true
    · have hd1 : hd.1 = key := eq_of_beq hh
      have hpredhd : (hd.1 == target) = false := by rw [hd1]; exact h
      rw [if_pos hh]
      rw [List.find?_cons_of_neg _ (by simp [h]), List.find?_cons_of_neg _ (by simp [hpredhd])]
      exact ih
    · rw [if_neg hh]
      by_cases ht : (hd.1 == target) = true
      · rw [List.find?_cons_of_pos _ (by exact ht), List.find?_cons_of_pos _ (by exact ht)]
      · rw [List.find?_cons_of_neg _ (by exact ht), List.find?_cons_of_neg _ (by exact ht)]
        exact ih

lemma find?_setProp_of_ne (ps : List (String × PropValue)) (key target : String)
    (v : PropValue) (h : (key == target) = false) :
    ((setProp ps key v).find? (fun kv => kv.1 == target)) =
      ps.find? (fun kv => kv.1 == target) := by
  unfold setProp
  split
  · exact find?_map_setProp ps key target v h
  · rw [List.find?_append]
    cases hfind : ps.find? (fun kv => kv.1 == target) with
    | some kv => rfl
    | none =>
      rw [Option.none_or, List.find?_cons_of_neg _ (by simp [h])]
      rfl

lemma lookup_videoId_after_updateProps (ps : List (String × PropValue))
    (d : TranscriptPageData) :
    (((updateProperties d).foldl (fun acc kv => setProp acc kv.1 kv.2) ps).find?
      (fun kv => kv.1 == "Video ID")) = ps.find? (fun kv => kv.1 == "Video ID") := by
  have hfold : (updateProperties d).foldl (fun acc kv => setProp acc kv.1 kv.2) ps =
      setProp (setProp (setProp ps "Title" (PropValue.titleProp d.title))
        "Transcription Date" (PropValue.dateStart d.transcriptionDate.isoDate))
        "Status" (PropValue.selectName "Updated") := rfl
  rw [hfold, find?_setProp_of_ne _ _ _ _ (by decide),
    find?_setProp_of_ne _ _ _ _ (by decide), find?_setProp_of_ne _ _ _ _ (by decide)]

/-- The per-page function of the `pages.map` in `pagesUpdate`. -/
def updatePropsFn (pid : Nat) (d : TranscriptPageData) : NotionPage → NotionPage :=
  fun p =>
    if p.id == pid then
      { p with properties :=
          (updateProperties d).foldl (fun acc kv => setProp acc kv.1 kv.2) p.properties }
    else p

/-- The per-page function of the `pages.map` in `replaceBlocks`. -/
def setBlocksFn (pid : Nat) (cs : List NotionBlock) : NotionPage → NotionPage :=
  fun p => if p.id == pid then { p with blocks := cs } else p

/-- The page `createTranscriptPage` creates on a fresh sync. -/
def createdPage (db : NotionDatabase) (d : TranscriptPageData) : NotionPage :=
  ⟨db.nextPageId, createProperties d, buildPageContent d⟩

/-- The database after a fresh sync created its page. -/
def dbAfterCreate (db : NotionDatabase) (d : TranscriptPageData) : NotionDatabase :=
  { db with
      pages := db.pages ++ [createdPage db d],
      nextPageId := db.nextPageId + 1 }

/-- The database after `updateTranscriptPage` rewrote a page in place. -/
def dbAfterUpdate (db : NotionDatabase) (pid : Nat) (d : TranscriptPageData) :
    NotionDatabase :=
  { db with
      pages := (db.pages.map (updatePropsFn pid d)).map
        (setBlocksFn pid (buildPageContent d)) }

lemma pageVideoIdMatches_updateFn (pid : Nat) (d : TranscriptPageData)
    (vid : String) (p : NotionPage) :
    pageVideoIdMatches (updatePropsFn pid d p) vid = pageVideoIdMatches p vid := by
  unfold updatePropsFn
  by_cases hid : (p.id == pid) = true
  · rw [if_pos hid]
    unfold pageVideoIdMatches lookupProp
    rw [show ({ p with properties :=
        (updateProperties d).foldl (fun acc kv => setProp acc kv.1 kv.2) p.properties } :
          NotionPage).properties =
      (updateProperties d).foldl (fun acc kv => setProp acc kv.1 kv.2) p.properties from rfl]
    rw [lookup_videoId_after_updateProps]
  · rw [if_neg hid]

lemma pageVideoIdMatches_blocksFn (pid : Nat) (cs : List NotionBlock)
    (vid : String) (p : NotionPage) :
    pageVideoIdMatches (setBlocksFn pid cs p) vid = pageVideoIdMatches p vid := by
  unfold setBlocksFn
  by_cases hid : (p.id == pid) = true
  · rw [if_pos hid]
    rfl
  · rw [if_neg hid]

lemma count_matches_map (pages : List NotionPage) (f : NotionPage → NotionPage)
    (vid : String) (h : ∀ p, pageVideoIdMatches (f p) vid = pageVideoIdMatches p vid) :
    ((pages.map f).filter (fun p => pageVideoIdMatches p vid)).length =
      (pages.filter (fun p => pageVideoIdMatches p vid)).length := by
  induction pages with
  | nil => rfl
  | cons hd tl ih =>
    simp only [List.map_cons, List.filter_cons, h hd]
    cases pageVideoIdMatches hd vid <;> simp [ih]

lemma pagesCreate_ok (db : NotionDatabase) (d : TranscriptPageData)
    (hall : (createProperties d).all (fun kv => db.schemaFields.contains kv.1) = true) :
    pagesCreate db (createProperties d) (buildPageContent d) =
      (dbAfterCreate db d, Except.ok db.nextPageId) := by
  unfold pagesCreate
  rw [if_pos hall]
  rfl

lemma createTranscriptPage_fresh (db : NotionDatabase) (d : TranscriptPageData)
    (hq : queryByVideoId db d.videoId = [])
    (hall : (createProperties d).all (fun kv => db.schemaFields.contains kv.1) = true) :
    createTranscriptPage db false d =
      (dbAfterCreate db d,
       ⟨true, some db.nextPageId, some (pageUrlOf db.nextPageId), none, some false⟩) := by
  unfold createTranscriptPage
  rw [hq, pagesCreate_ok db d hall]
  rfl

lemma createTranscriptPage_found (db : NotionDatabase) (d : TranscriptPageData)
    (p : NotionPage) (rest : List NotionPage)
    (hq : queryByVideoId db d.videoId = p :: rest) :
    createTranscriptPage db false d = updateTranscriptPage db p.id d := by
  unfold createTranscriptPage
  rw [hq]
  rfl

lemma createTranscriptPage_queryFails (db : NotionDatabase) (d : TranscriptPageData)
    (hall : (createProperties d).all (fun kv => db.schemaFields.contains kv.1) = true) :
    createTranscriptPage db true d =
      (dbAfterCreate db d,
       ⟨true, some db.nextPageId, some (pageUrlOf db.nextPageId), none, some false⟩) := by
  unfold createTranscriptPage
  rw [pagesCreate_ok db d hall]
  rfl

lemma updateTranscriptPage_ok (db : NotionDatabase) (pid : Nat) (d : TranscriptPageData)
    (hupd : (updateProperties d).all (fun kv => db.schemaFields.contains kv.1) = true) :
    updateTranscriptPage db pid d =
      (dbAfterUpdate db pid d, ⟨true, some pid, none, none, some true⟩) := by
  unfold updateTranscriptPage
  rw [show pagesUpdate db pid (updateProperties d) =
    ({ db with pages := db.pages.map (updatePropsFn pid d) }, Except.ok ()) from by
      unfold pagesUpdate
      rw [if_pos hupd]
      rfl]
  rfl

/-- Claim C5: when the workspace answers every call without error, syncing
the same transcript data twice against a standard-schema database that does
not yet hold its video id creates exactly one page: the first call answers
`duplicate=false`, and the second finds the page by the stored video id,
updates it in place, and answers `duplicate=true` with the same `pageId`;
afterwards exactly one page carries the video id and the page count grew by
exactly one. -/
theorem syncTranscript_idempotent (db : NotionDatabase) (d : TranscriptPageData)
    (hschema : db.schemaFields = standardSchema)
    (hfresh : ∀ p ∈ db.pages, pageVideoIdMatches p d.videoId = false) :
    ((createTranscriptPage db false d).2.success = true ∧
     (createTranscriptPage db false d).2.duplicate = some false) ∧
    ((createTranscriptPage (createTranscriptPage db false d).1 false d).2.success = true ∧
     (createTranscriptPage (createTranscriptPage db false d).1 false d).2.duplicate = some true ∧
     (createTranscriptPage (createTranscriptPage db false d).1 false d).2.pageId =
       (createTranscriptPage db false d).2.pageId) ∧
    ((createTranscriptPage (createTranscriptPage db false d).1 false d).1.pages.filter
        (fun p => pageVideoIdMatches p d.videoId)).length = 1 ∧
    (createTranscriptPage (createTranscriptPage db false d).1 false d).1.pages.length =
      db.pages.length + 1 := by
  have hall : (createProperties d).all (fun kv => db.schemaFields.contains kv.1) = true := by
    rw [hschema]
    exact createProperties_all_standard d
  have hfb : ∀ p ∈ db.pages, ¬ pageVideoIdMatches p d.videoId = true := by
    intro p hp
    rw [hfresh p hp]
    simp
  have hq1 : queryByVideoId db d.videoId = [] := List.filter_eq_nil_iff.mpr hfb
  have hnew : pageVideoIdMatches (createdPage db d) d.videoId = true :=
    created_page_matches d db.nextPageId (buildPageContent d)
  have hfull1 := createTranscriptPage_fresh db d hq1 hall
  have hq2 : queryByVideoId (dbAfterCreate db d) d.videoId = [createdPage db d] := by
    show (db.pages ++ [createdPage db d]).filter
        (fun p => pageVideoIdMatches p d.videoId) = _
    rw [List.filter_append, List.filter_eq_nil_iff.mpr hfb, List.nil_append,
      List.filter_cons, if_pos hnew]
    rfl
  have hupd : (updateProperties d).all
      (fun kv => (dbAfterCreate db d).schemaFields.contains kv.1) = true := by
    show (updateProperties d).all (fun kv => db.schemaFields.contains kv.1) = true
    rw [hschema]
    rfl
  have hfound := createTranscriptPage_found (dbAfterCreate db d) d (createdPage db d) [] hq2
  have hok := updateTranscriptPage_ok (dbAfterCreate db d) (createdPage db d).id d hupd
  have hfull2 : createTranscriptPage (createTranscriptPage db false d).1 false d =
      (dbAfterUpdate (dbAfterCreate db d) (createdPage db d).id d,
       ⟨true, some (createdPage db d).id, none, none, some true⟩) := by
    rw [hfull1]
    exact hfound.trans hok
  rw [hfull2, hfull1]
  refine ⟨⟨rfl, rfl⟩, ⟨rfl, rfl, rfl⟩, ?_, ?_⟩
  · show ((((dbAfterCreate db d).pages.map (updatePropsFn (createdPage db d).id d)).map
        (setBlocksFn (createdPage db d).id (buildPageContent d))).filter
        (fun p => pageVideoIdMatches p d.videoId)).length = 1
    rw [count_matches_map _ _ _ (pageVideoIdMatches_blocksFn _ _ d.videoId),
      count_matches_map _ _ _ (pageVideoIdMatches_updateFn _ d d.videoId)]
    show ((db.pages ++ [createdPage db d]).filter
        (fun p => pageVideoIdMatches p d.videoId)).length = 1
    rw [List.filter_append, List.filter_eq_nil_iff.mpr hfb, List.nil_append,
      List.filter_cons, if_pos hnew]
    rfl
  · show (((dbAfterCreate db d).pages.map (updatePropsFn (createdPage db d).id d)).map
      (setBlocksFn (createdPage db d).id (buildPageContent d))).length = db.pages.length + 1
    rw [List.length_map, List.length_map]
    show (db.pages ++ [createdPage db d]).length = db.pages.length + 1
    rw [List.length_append]
    rfl

/-- A transcript payload with every optional field present: duration 125 s,
confidence 0.9, language "en". -/
def sampleData : TranscriptPageData :=
  ⟨"Transcript: v.mp4", "hello world", "vid-1", "v.mp4", some 125, some (9 / 10),
    some "en", ⟨"2025-01-01", "1/1/2025"⟩, ⟨"2025-01-02", "1/2/2025"⟩⟩

/-- An empty database carrying the standard schema. -/
def emptyStandardDb : NotionDatabase := ⟨standardSchema, [], 0⟩

/-- Witness for claim C5 on an empty standard-schema database. -/
theorem syncTranscript_idempotent_witness :
    ((createTranscriptPage emptyStandardDb false sampleData).2.success = true ∧
     (createTranscriptPage emptyStandardDb false sampleData).2.duplicate = some false) ∧
    ((createTranscriptPage (createTranscriptPage emptyStandardDb false sampleData).1
        false sampleData).2.success = true ∧
     (createTranscriptPage (createTranscriptPage emptyStandardDb false sampleData).1
        false sampleData).2.duplicate = some true ∧
     (createTranscriptPage (createTranscriptPage emptyStandardDb false sampleData).1
        false sampleData).2.pageId =
       (createTranscriptPage emptyStandardDb false sampleData).2.pageId) ∧
    ((createTranscriptPage (createTranscriptPage emptyStandardDb false sampleData).1
        false sampleData).1.pages.filter
        (fun p => pageVideoIdMatches p sampleData.videoId)).length = 1 ∧
    (createTranscriptPage (createTranscriptPage emptyStandardDb false sampleData).1
        false sampleData).1.pages.length = emptyStandardDb.pages.length + 1 :=
  syncTranscript_idempotent emptyStandardDb sampleData rfl
    (by intro p hp; simp [emptyStandardDb] at hp)

/-- An empty database whose schema lacks the `Duration` field. -/
def noDurationDb : NotionDatabase := ⟨schemaNoDuration, [], 0⟩

/-- Claim C2 counterexample: `createTranscriptPage` never queries the target
database's schema — its property object is a function of the transcript data
alone — so syncing a transcript that carries a duration to a database whose
schema lacks `Duration` sends a `Duration` property anyway, and the sync
fails with a validation error instead of succeeding with the field omitted:
no page is created. -/
theorem createTranscriptPage_fails_on_missing_duration_field :
    (createProperties sampleData).any (fun kv => kv.1 == "Duration") = true ∧
    schemaNoDuration.contains "Duration" = false ∧
    (createTranscriptPage noDurationDb false sampleData).2.success = false ∧
    (createTranscriptPage noDurationDb false sampleData).2.error =
      some "Validation error: property does not exist" ∧
    (createTranscriptPage noDurationDb false sampleData).1.pages = [] := by
  refine ⟨rfl, rfl, rfl, rfl, rfl⟩

/-- Claim C2 (amended): the sync stage consults no schema: the `Duration`
property is sent exactly when the transcript data's own duration is truthy,
whatever the target schema holds. A sync to a schema lacking `Duration`
omits the duration property and succeeds only when the transcript data
itself has no (truthy) duration; when a duration is present the create call
fails on the absent field (see the counterexample). -/
theorem createTranscriptPage_schema_blind (d : TranscriptPageData) (db : NotionDatabase)
    (hschema : db.schemaFields = schemaNoDuration)
    (hfresh : ∀ p ∈ db.pages, pageVideoIdMatches p d.videoId = false) :
    (createProperties d).any (fun kv => kv.1 == "Duration") = jsTruthyNum d.duration ∧
    (jsTruthyNum d.duration = false →
      (createTranscriptPage db false d).2.success = true ∧
      (createTranscriptPage db false d).2.duplicate = some false ∧
      (createTranscriptPage db false d).1.pages = db.pages ++ [createdPage db d] ∧
      (createProperties d).any (fun kv => kv.1 == "Duration") = false) := by
  refine ⟨createProperties_duration_key d, ?_⟩
  intro hdur
  have hall : (createProperties d).all (fun kv => db.schemaFields.contains kv.1) = true := by
    rw [hschema]
    exact createProperties_all_noDuration d hdur
  have hfb : ∀ p ∈ db.pages, ¬ pageVideoIdMatches p d.videoId = true := fun p hp => by
    rw [hfresh p hp]
    simp
  have hq : queryByVideoId db d.videoId = [] := List.filter_eq_nil_iff.mpr hfb
  have h1 := createTranscriptPage_fresh db d hq hall
  rw [h1]
  refine ⟨rfl, rfl, rfl, ?_⟩
  rw [createProperties_duration_key d]
  exact hdur

/-- The sample transcript payload with no duration at all. -/
def sampleDataNoDuration : TranscriptPageData :=
  ⟨"Transcript: v.mp4", "hello world", "vid-1", "v.mp4", none, some (9 / 10),
    some "en", ⟨"2025-01-01", "1/1/2025"⟩, ⟨"2025-01-02", "1/2/2025"⟩⟩

/-- Witness for the amended claim C2: without a duration in the data, the
sync to the Duration-less schema succeeds and sends no `Duration` field. -/
theorem createTranscriptPage_schema_blind_witness :
    (createTranscriptPage noDurationDb false sampleDataNoDuration).2.success = true ∧
    (createTranscriptPage noDurationDb false sampleDataNoDuration).2.duplicate = some false ∧
    (createTranscriptPage noDurationDb false sampleDataNoDuration).1.pages =
      noDurationDb.pages ++ [createdPage noDurationDb sampleDataNoDuration] ∧
    (createProperties sampleDataNoDuration).any (fun kv => kv.1 == "Duration") = false :=
  (createTranscriptPage_schema_blind sampleDataNoDuration noDurationDb rfl
    (by intro p hp; simp [noDurationDb] at hp)).2 rfl

/-- Claim C10: a failing existence query is swallowed —
`findExistingTranscript` answers `exists=false` when the query throws — so
the sync proceeds to create a brand-new page and reports `duplicate=false`;
when a page for the same video id already exists, this leaves two pages for
the same `(videoId, databaseId)` pair. -/
theorem queryError_creates_second_page (db : NotionDatabase) (d : TranscriptPageData)
    (hschema : db.schemaFields = standardSchema) :
    findExistingTranscript (Except.error "network error") = (false, none) ∧
    (createTranscriptPage db true d).2.success = true ∧
    (createTranscriptPage db true d).2.duplicate = some false ∧
    (createTranscriptPage db true d).1.pages = db.pages ++ [createdPage db d] ∧
    ((db.pages.filter (fun p => pageVideoIdMatches p d.videoId)).length = 1 →
      ((createTranscriptPage db true d).1.pages.filter
        (fun p => pageVideoIdMatches p d.videoId)).length = 2) := by
  have hall : (createProperties d).all (fun kv => db.schemaFields.contains kv.1) = true := by
    rw [hschema]
    exact createProperties_all_standard d
  have h1 := createTranscriptPage_queryFails db d hall
  have hnew : pageVideoIdMatches (createdPage db d) d.videoId = true :=
    created_page_matches d db.nextPageId (buildPageContent d)
  rw [h1]
  refine ⟨rfl, rfl, rfl, rfl, ?_⟩
  intro hone
  show ((db.pages ++ [createdPage db d]).filter
      (fun p => pageVideoIdMatches p d.videoId)).length = 2
  rw [List.filter_append, List.length_append, hone, List.filter_cons, if_pos hnew]
  rfl

/-- A standard-schema database already holding the page for the sample
video. -/
def dbWithExistingPage : NotionDatabase :=
  ⟨standardSchema, [⟨0, createProperties sampleData, buildPageContent sampleData⟩], 1⟩

/-- Witness for claim C10: with the sample page already present and the
existence query failing, the second sync leaves two pages for the same
video id. -/
theorem queryError_creates_second_page_witness :
    findExistingTranscript (Except.error "network error") = (false, none) ∧
    ((createTranscriptPage dbWithExistingPage true sampleData).1.pages.filter
      (fun p => pageVideoIdMatches p sampleData.videoId)).length = 2 := by
  have hmatch : pageVideoIdMatches
      ⟨0, createProperties sampleData, buildPageContent sampleData⟩ sampleData.videoId = true :=
    created_page_matches sampleData 0 (buildPageContent sampleData)
  have hone : (dbWithExistingPage.pages.filter
      (fun p => pageVideoIdMatches p sampleData.videoId)).length = 1 := by
    show ([⟨0, createProperties sampleData, buildPageContent sampleData⟩].filter
      (fun p => pageVideoIdMatches p sampleData.videoId)).length = 1
    rw [List.filter_cons, if_pos hmatch]
    rfl
  exact ⟨(queryError_creates_second_page dbWithExistingPage sampleData rfl).1,
    (queryError_creates_second_page dbWithExistingPage sampleData rfl).2.2.2.2 hone⟩
